import Mathlib

/-!
Shallow embedding of the query-string filter backends and pagination stage of
wagtail/api/v2 (files `filters.py` and `pagination.py`), together with proofs of
the behavioural properties claimed for them.

External collaborators (Django ORM querysets, the page-tree store, the search
backend, the hook registry, Python built-ins) are modelled as explicit data:
a queryset is a list of items plus the request-scoped side-channel annotations
that the filter chain stores on it, the page store is a lookup function, the
search backend is a function value, and hooks are a list of function values.
-/

deriving instance DecidableEq for Except

namespace Wagtail

/-! ## String helpers (models of the Python string operations used by the code) -/

/-- Auxiliary splitter over characters: accumulates the current token (reversed)
and starts a new token at every comma. -/
def splitCommaAux : List Char → List Char → List String
  | [], acc => [String.mk acc.reverse]
  | c :: cs, acc =>
    if c = ',' then String.mk acc.reverse :: splitCommaAux cs []
    else splitCommaAux cs (c :: acc)

/-- Models Python `value.split(',')`: splitting on every comma, an empty string
yields the single token `""`. -/
def pySplitComma (s : String) : List String :=
  splitCommaAux s.data []

/-- Value of a decimal digit character, `none` for non-digits. -/
def digitVal (c : Char) : Option Nat :=
  if 48 ≤ c.toNat ∧ c.toNat ≤ 57 then some (c.toNat - 48) else none

/-- Accumulate decimal digits left to right; fails on any non-digit. -/
def decDigitsAux : List Char → Nat → Option Nat
  | [], acc => some acc
  | c :: cs, acc =>
    match digitVal c with
    | some d => decDigitsAux cs (acc * 10 + d)
    | none => none

/-- A non-empty all-digit character list read as a natural number. -/
def decDigits : List Char → Option Nat
  | [] => none
  | c :: cs => decDigitsAux (c :: cs) 0

/-- Models Python `int(s)` on the query-string values this code receives:
an optional single sign followed by decimal digits parses to an integer, and
everything else raises `ValueError`, modelled as `none`. -/
def pyInt (s : String) : Option Int :=
  match s.data with
  | [] => none
  | c :: cs =>
    if c = '-' then (decDigits cs).map (fun n => -(n : Int))
    else if c = '+' then (decDigits cs).map (fun n => (n : Int))
    else (decDigits (c :: cs)).map (fun n => (n : Int))

/-- Does the string begin with the character `-` (Python `s.startswith('-')`). -/
def strStartsWithDash (s : String) : Bool :=
  match s.data with
  | [] => false
  | c :: _ => c = '-'

/-- Models Python `s[1:]`: the string with its first character removed. -/
def strDropOne (s : String) : String :=
  String.mk (s.data.drop 1)

/-- Modelled from the spec: `parse_boolean` lives in wagtail.api.v2.utils, which is
not part of the sources; the spec says boolean-kind fields accept a fixed
case-insensitive vocabulary of truthy/falsy string tokens and reject anything else. -/
def parse_boolean (s : String) : Option Bool :=
  let l := String.mk (s.data.map Char.toLower)
  if l = "true" ∨ l = "1" then some true
  else if l = "false" ∨ l = "0" then some false
  else none

/-! ## Data model -/

/-- A page/item record: an id, a materialized tree path (treebeard-style: a
child's path extends its parent's path by one step), scalar field values and
tag-field values. -/
structure Item where
  id : Nat
  treePath : List Nat := []
  attrs : List (String × String) := []
  tagAttrs : List (String × List String) := []
deriving Repr, DecidableEq

/-- The collection query handle threaded through the filter chain: the current
item list plus the request-scoped side-channel annotations the filters store on
it (`_filtered_by_tag`, `_filtered_by_child_of`), and a marker recording that
database-side random ordering (`order_by('?')`) was requested. Narrowing
operations preserve the annotations for the duration of the request, as the
spec's Collection Query data model states. -/
structure Queryset where
  items : List Item
  filteredByTag : Bool := false
  filteredByChildOf : Option Item := none
  randomOrdered : Bool := false
deriving Repr, DecidableEq

/-- Scalar attribute lookup on an item (empty string when absent). -/
def Item.getAttr (it : Item) (name : String) : String :=
  (((it.attrs).find? (fun p => p.1 == name)).map (fun p => p.2)).getD ""

/-- Tag list of a tag-kind field on an item (empty when absent). -/
def Item.getTags (it : Item) (name : String) : List String :=
  (((it.tagAttrs).find? (fun p => p.1 == name)).map (fun p => p.2)).getD []

/-- Does the item carry a tag with the given name on the given tag field
(the ORM filter `field__name=tag`). -/
def Item.hasTag (it : Item) (fieldName tag : String) : Bool :=
  (Item.getTags it fieldName).contains tag

/-- Narrow a queryset by a predicate; annotations are preserved. -/
def Queryset.filterItems (qs : Queryset) (p : Item → Bool) : Queryset :=
  { qs with items := qs.items.filter p }

/-- The ORM filter `{field_name: value}` (exact match). -/
def Queryset.filterAttrEquals (qs : Queryset) (name value : String) : Queryset :=
  Queryset.filterItems qs (fun it => Item.getAttr it name == value)

/-- The ORM filter `{field_name + '__name': tag}` used for tag fields. -/
def Queryset.filterTagNamed (qs : Queryset) (fieldName tag : String) : Queryset :=
  Queryset.filterItems qs (fun it => Item.hasTag it fieldName tag)

/-- Lexicographic comparison of character lists by code point. -/
def charListLe : List Char → List Char → Bool
  | [], _ => true
  | _ :: _, [] => false
  | a :: as, b :: bs =>
    if a.toNat < b.toNat then true
    else if b.toNat < a.toNat then false
    else charListLe as bs

/-- String order used for `order_by` (the database collation is external; any
fixed total order models it). -/
def strLe (a b : String) : Bool :=
  charListLe a.data b.data

/-- Insertion step of the sort backing `order_by`. -/
def insertSorted (key : Item → String) (x : Item) : List Item → List Item
  | [] => [x]
  | y :: ys => if strLe (key x) (key y) then x :: y :: ys else y :: insertSorted key x ys

/-- Stable insertion sort of items by a string key. -/
def sortItems (key : Item → String) : List Item → List Item
  | [] => []
  | x :: xs => insertSorted key x (sortItems key xs)

/-- The ORM `queryset.order_by(field)`: ascending sort on the field value. -/
def Queryset.order_by (qs : Queryset) (fieldName : String) : Queryset :=
  { qs with items := sortItems (fun it => Item.getAttr it fieldName) qs.items }

/-- The ORM `queryset.reverse()`. -/
def Queryset.reverse (qs : Queryset) : Queryset :=
  { qs with items := qs.items.reverse }

/-- The ORM `queryset.order_by('?')`: the database draws a random permutation,
which is external nondeterminism; the embedding records that random ordering
was requested. -/
def Queryset.orderRandom (qs : Queryset) : Queryset :=
  { qs with randomOrdered := true }

/-- The page-tree narrowing `queryset.child_of(parent)`: items whose path
extends the parent's path by exactly one step. -/
def Queryset.child_of (qs : Queryset) (parent : Item) : Queryset :=
  Queryset.filterItems qs (fun it =>
    List.isPrefixOf parent.treePath it.treePath &&
      it.treePath.length == parent.treePath.length + 1)

/-- The page-tree narrowing `queryset.descendant_of(parent)`: items strictly
below the parent in the tree. -/
def Queryset.descendant_of (qs : Queryset) (parent : Item) : Queryset :=
  Queryset.filterItems qs (fun it =>
    List.isPrefixOf parent.treePath it.treePath &&
      decide (parent.treePath.length < it.treePath.length))

/-- The ORM `queryset.count()`. -/
def Queryset.count (qs : Queryset) : Nat :=
  qs.items.length

/-- Python slicing `queryset[start:stop]` for `0 ≤ start ≤ stop`. -/
def Queryset.pySlice (qs : Queryset) (start stop : Nat) : List Item :=
  (qs.items.drop start).take (stop - start)

/-! ## Requests and views -/

/-- `request.GET`: the query-string parameters, one string value per name. -/
abbrev Params := List (String × String)

/-- `request.GET[key]` / `request.GET.get(key)`. -/
def Params.get? (req : Params) (key : String) : Option String :=
  ((req.find? (fun p => p.1 == key)).map (fun p => p.2))

/-- `key in request.GET`. -/
def Params.hasParam (req : Params) (key : String) : Bool :=
  (Params.get? req key).isSome

/-- The kind of a model field, as far as the filter code distinguishes them:
`BooleanField`/`NullBooleanField`, `IntegerField`/`AutoField`, `TaggableManager`
or anything else. -/
inductive FieldKind
  | boolean
  | integer
  | tag
  | generic
deriving Repr, DecidableEq

/-- The view configuration a filter receives: the available db-backed fields
with their kinds (`get_available_fields(model, db_fields_only=True)` plus
`_meta.get_field`) and the full available-field list used by ordering. -/
structure View where
  dbFields : List (String × FieldKind)
  availableFields : List String
deriving Repr

/-! ## FieldsFilter -/

/-- Value coercion of `FieldsFilter.filter_queryset`: boolean and integer kinds
are parsed (a failure is the field-filter `BadRequestError`) and the coerced
value is rendered back canonically for the exact-match comparison; other scalar
kinds filter on the raw string. -/
def coerceValue (kind : FieldKind) (fieldName value : String) : Except String String :=
  match kind with
  | FieldKind.boolean =>
    match parse_boolean value with
    | some b => Except.ok (if b then "True" else "False")
    | none => Except.error ("field filter error. \x27" ++ value ++
        "\x27 is not a valid value for " ++ fieldName ++ " (invalid literal)")
  | FieldKind.integer =>
    match pyInt value with
    | some n => Except.ok (toString n)
    | none => Except.error ("field filter error. \x27" ++ value ++
        "\x27 is not a valid value for " ++ fieldName ++ " (invalid literal)")
  | _ => Except.ok value

/-- One iteration of the `for field_name, value in request.GET.items()` loop of
`FieldsFilter.filter_queryset`: parameters whose name is not an available db
field are ignored; tag-kind fields split the value on commas, apply one
has-tag-named filter per token and set the `_filtered_by_tag` annotation;
other kinds coerce the value and apply an exact-match filter. -/
def FieldsFilter.applyParam (view : View) (qs : Queryset) (fieldName value : String) :
    Except String Queryset :=
  match (view.dbFields).find? (fun p => p.1 == fieldName) with
  | none => Except.ok qs
  | some fk =>
    match fk.2 with
    | FieldKind.tag =>
      let qs := (pySplitComma value).foldl
        (fun q tag => Queryset.filterTagNamed q fieldName tag) qs
      Except.ok { qs with filteredByTag := true }
    | kind =>
      match coerceValue kind fieldName value with
      | Except.error e => Except.error e
      | Except.ok v => Except.ok (Queryset.filterAttrEquals qs fieldName v)

/-- `FieldsFilter.filter_queryset`: fold the per-parameter step over the
request's query string. -/
def FieldsFilter.filter_queryset (request : Params) (qs : Queryset) (view : View) :
    Except String Queryset :=
  request.foldlM (fun q p => FieldsFilter.applyParam view q p.1 p.2) qs

/-! ## OrderingFilter -/

/-- `OrderingFilter.filter_queryset`: the `order` parameter selects ordering.
`random` maps to database random ordering and rejects when `offset` is also
present; a leading `-` strips to the field name, orders ascending by it and
reverses; unknown fields reject. -/
def OrderingFilter.filter_queryset (request : Params) (queryset : Queryset) (view : View) :
    Except String Queryset :=
  match Params.get? request "order" with
  | none => Except.ok queryset
  | some order_by =>
    if order_by == "random" then
      if Params.hasParam request "offset" then
        Except.error "random ordering with offset is not supported"
      else
        Except.ok (Queryset.orderRandom queryset)
    else
      let reverse_order := strStartsWithDash order_by
      let order_by := if strStartsWithDash order_by then strDropOne order_by else order_by
      if (view.availableFields).contains order_by then
        let queryset := Queryset.order_by queryset order_by
        Except.ok (if reverse_order then Queryset.reverse queryset else queryset)
      else
        Except.error ("cannot order by \x27" ++ order_by ++ "\x27 (unknown field)")

/-! ## SearchFilter -/

/-- The two backend error kinds `SearchFilter` translates into request
rejections: `FilterFieldError` and `OrderByFieldError`. -/
inductive SearchBackendError
  | filterField (fieldName : String)
  | orderByField (fieldName : String)
deriving Repr, DecidableEq

/-- The external search backend (`get_search_backend()`), modelled as an opaque
function from (query text, queryset, operator, order-by-relevance flag). -/
structure SearchBackend where
  search : String → Queryset → Option String → Bool → Except SearchBackendError Queryset

/-- `SearchFilter.filter_queryset`: when `search` is present, rejects if search
is disabled by configuration or if the queryset carries the tag-filtered
annotation; otherwise delegates to the backend, passing the optional
`search_operator` and ordering by relevance exactly when `order` is absent,
and translates the two backend field errors into request rejections. -/
def SearchFilter.filter_queryset (search_enabled : Bool) (sb : SearchBackend)
    (request : Params) (queryset : Queryset) : Except String Queryset :=
  match Params.get? request "search" with
  | none => Except.ok queryset
  | some search_query =>
    if !search_enabled then
      Except.error "search is disabled"
    else if queryset.filteredByTag then
      Except.error "filtering by tag with a search query is not supported"
    else
      let search_operator := Params.get? request "search_operator"
      let order_by_relevance := (Params.get? request "order").isNone
      match sb.search search_query queryset search_operator order_by_relevance with
      | Except.ok qs => Except.ok qs
      | Except.error (SearchBackendError.filterField f) =>
        Except.error ("cannot filter by \x27" ++ f ++ "\x27 while searching (field is not indexed)")
      | Except.error (SearchBackendError.orderByField f) =>
        Except.error ("cannot order by \x27" ++ f ++ "\x27 while searching (field is not indexed)")

/-! ## Tree-relationship filters -/

/-- The two methods the site-restricted subclasses override: root resolution
(`get_root_page`) and id lookup (`get_page_by_id`, where a `none` result is the
`Page.DoesNotExist` exception). Quantifying over this environment covers both
the unrestricted and the restricted variants. -/
structure TreeEnv where
  get_root_page : Item
  get_page_by_id : Int → Option Item

/-- The try/except block of `ChildOfFilter.filter_queryset` resolving the
`child_of` value to a page: `int(...)` with a negative check (a parse failure
or a negative integer takes the `ValueError` handler, which accepts only the
literal `root`), and an id lookup whose `Page.DoesNotExist` becomes the
"parent page doesn't exist" rejection. -/
def ChildOfFilter.resolve_parent (env : TreeEnv) (raw : String) : Except String Item :=
  match pyInt raw with
  | some parent_page_id =>
    if parent_page_id < 0 then
      if raw == "root" then Except.ok env.get_root_page
      else Except.error "child_of must be a positive integer"
    else
      match env.get_page_by_id parent_page_id with
      | some p => Except.ok p
      | none => Except.error "parent page doesn\x27t exist"
  | none =>
    if raw == "root" then Except.ok env.get_root_page
    else Except.error "child_of must be a positive integer"

/-- `ChildOfFilter.filter_queryset`: `child_of` names a parent page by numeric
id or the literal `root`. On success the queryset is narrowed to direct
children and the `_filtered_by_child_of` annotation records the parent. -/
def ChildOfFilter.filter_queryset (env : TreeEnv) (request : Params) (queryset : Queryset) :
    Except String Queryset :=
  match Params.get? request "child_of" with
  | none => Except.ok queryset
  | some raw =>
    match ChildOfFilter.resolve_parent env raw with
    | Except.error e => Except.error e
    | Except.ok parent_page =>
      let queryset := Queryset.child_of queryset parent_page
      Except.ok { queryset with filteredByChildOf := some parent_page }

/-- The try/except block of `DescendantOfFilter.filter_queryset`, identical to
the child-of one except for the parameter name in the validation message and
the "ancestor page doesn't exist" lookup rejection. -/
def DescendantOfFilter.resolve_parent (env : TreeEnv) (raw : String) : Except String Item :=
  match pyInt raw with
  | some parent_page_id =>
    if parent_page_id < 0 then
      if raw == "root" then Except.ok env.get_root_page
      else Except.error "descendant_of must be a positive integer"
    else
      match env.get_page_by_id parent_page_id with
      | some p => Except.ok p
      | none => Except.error "ancestor page doesn\x27t exist"
  | none =>
    if raw == "root" then Except.ok env.get_root_page
    else Except.error "descendant_of must be a positive integer"

/-- `DescendantOfFilter.filter_queryset`: before parsing anything it rejects if
the queryset already carries the child-of annotation; then `descendant_of`
resolves like `child_of` does and narrows to the resolved page's subtree. -/
def DescendantOfFilter.filter_queryset (env : TreeEnv) (request : Params) (queryset : Queryset) :
    Except String Queryset :=
  match Params.get? request "descendant_of" with
  | none => Except.ok queryset
  | some raw =>
    if (queryset.filteredByChildOf).isSome then
      Except.error "filtering by descendant_of with child_of is not supported"
    else
      match DescendantOfFilter.resolve_parent env raw with
      | Except.error e => Except.error e
      | Except.ok parent_page => Except.ok (Queryset.descendant_of queryset parent_page)

/-- A site, for the restricted variants: its root page and its page set
(`pages_for_site`). -/
structure Site where
  root_page : Item
  pages : List Item

/-- The environment the `RestrictedChildOfFilter` / `RestrictedDescendantOfFilter`
overrides induce: the site's root page, and id lookup restricted to the site's
page set. All other behaviour is inherited unchanged from the base filters. -/
def restrictedEnv (site : Site) : TreeEnv :=
  { get_root_page := site.root_page
    get_page_by_id := fun n => (site.pages).find? (fun p => (p.id : Int) == n) }

/-- `RestrictedChildOfFilter.filter_queryset`: the inherited base filter run
with the site-restricted environment. -/
def RestrictedChildOfFilter.filter_queryset (site : Site) (request : Params)
    (queryset : Queryset) : Except String Queryset :=
  ChildOfFilter.filter_queryset (restrictedEnv site) request queryset

/-- `RestrictedDescendantOfFilter.filter_queryset`: the inherited base filter
run with the site-restricted environment. -/
def RestrictedDescendantOfFilter.filter_queryset (site : Site) (request : Params)
    (queryset : Queryset) : Except String Queryset :=
  DescendantOfFilter.filter_queryset (restrictedEnv site) request queryset

/-- The child-of stage followed by the descendant-of stage, in the pipeline
order the view applies them. -/
def treeFilterPipeline (env : TreeEnv) (request : Params) (queryset : Queryset) :
    Except String Queryset :=
  match ChildOfFilter.filter_queryset env request queryset with
  | Except.error e => Except.error e
  | Except.ok qs => DescendantOfFilter.filter_queryset env request qs

/-! ## ForExplorerFilter -/

/-- A registered `construct_explorer_page_queryset` hook: an externally supplied
query transform taking (resolved parent page, current queryset, request). -/
abbrev ExplorerHook := Item → Queryset → Params → Queryset

/-- `ForExplorerFilter.filter_queryset`: `request.GET.get('for_explorer')` is
tested for Python truthiness (absent or empty string is falsy, any other string
is truthy). When truthy, the child-of annotation must be present (reject
otherwise); the registered hooks are then invoked in registration order with
(parent page, queryset, request), threading the queryset through each. -/
def ForExplorerFilter.filter_queryset (hooks : List ExplorerHook) (request : Params)
    (queryset : Queryset) : Except String Queryset :=
  if (Params.get? request "for_explorer").getD "" != "" then
    match queryset.filteredByChildOf with
    | none => Except.error "filtering by for_explorer without child_of is not supported"
    | some parent_page =>
      Except.ok (hooks.foldl (fun qs hook => hook parent_page qs request) queryset)
  else
    Except.ok queryset

/-! ## Pagination -/

/-- Python truthiness of the `WAGTAILAPI_LIMIT_MAX` setting (absent/None is
modelled as `none`; the integers `0` is falsy). -/
def limitMaxTruthy : Option Int → Bool
  | none => false
  | some n => n != 0

/-- The first `try` block of `paginate_queryset`:
`offset = int(request.GET.get('offset', 0))`, rejecting negatives and parse
failures with an error naming the parameter. -/
def WagtailPagination.parseOffset (request : Params) : Except String Int :=
  match Params.get? request "offset" with
  | none => Except.ok 0
  | some s =>
    match pyInt s with
    | some n =>
      if n < 0 then Except.error "offset must be a positive integer" else Except.ok n
    | none => Except.error "offset must be a positive integer"

/-- `limit_default = 20 if not limit_max else min(20, limit_max)`. -/
def WagtailPagination.limitDefault (limit_max : Option Int) : Int :=
  if limitMaxTruthy limit_max then min 20 (limit_max.getD 20) else 20

/-- The second `try` block of `paginate_queryset`: parse `limit` with the
computed default, rejecting negatives and parse failures with an error naming
the parameter. -/
def WagtailPagination.parseLimit (limit_max : Option Int) (request : Params) :
    Except String Int :=
  match Params.get? request "limit" with
  | none => Except.ok (WagtailPagination.limitDefault limit_max)
  | some s =>
    match pyInt s with
    | some n =>
      if n < 0 then Except.error "limit must be a positive integer" else Except.ok n
    | none => Except.error "limit must be a positive integer"

/-- `if limit_max and limit > limit_max: raise BadRequestError(...)`. -/
def WagtailPagination.checkLimitMax (limit_max : Option Int) (limit : Int) :
    Except String Unit :=
  match limit_max with
  | none => Except.ok ()
  | some m =>
    if m != 0 && decide (m < limit) then
      Except.error ("limit cannot be higher than " ++ toString m)
    else Except.ok ()

/-- The value `paginate_queryset` produces: the stored `self.total_count` and
the sliced item sequence it returns. -/
structure PaginatedQueryset where
  total_count : Nat
  results : List Item
deriving Repr, DecidableEq

/-- `WagtailPagination.paginate_queryset`: validate `offset` and `limit`,
enforce the configured maximum, count the fully filtered queryset, and return
the slice `[offset, offset + limit)`. Both bounds are validated non-negative
before slicing, so `Int.toNat` is exact here. -/
def WagtailPagination.paginate_queryset (limit_max : Option Int) (queryset : Queryset)
    (request : Params) : Except String PaginatedQueryset :=
  match WagtailPagination.parseOffset request with
  | Except.error e => Except.error e
  | Except.ok offset =>
    match WagtailPagination.parseLimit limit_max request with
    | Except.error e => Except.error e
    | Except.ok limit =>
      match WagtailPagination.checkLimitMax limit_max limit with
      | Except.error e => Except.error e
      | Except.ok _ =>
        Except.ok
          { total_count := Queryset.count queryset
            results := Queryset.pySlice queryset offset.toNat (offset.toNat + limit.toNat) }

/-- The JSON-shaped values the response envelope is built from; object entries
keep their structural order. -/
inductive JsonVal
  | num (n : Nat)
  | arr (xs : List Item)
  | obj (entries : List (String × JsonVal))
deriving Repr

/-- `WagtailPagination.get_paginated_response`: the envelope is an ordered
object with `meta` (holding `total_count`) first and `items` second. -/
def WagtailPagination.get_paginated_response (total_count : Nat) (data : List Item) :
    JsonVal :=
  JsonVal.obj
    [("meta", JsonVal.obj [("total_count", JsonVal.num total_count)]),
     ("items", JsonVal.arr data)]

/-! ## Example fixtures used by the witnesses -/

/-- Root page of the example tree. -/
def exRoot : Item :=
  { id := 1, treePath := [1] }

/-- A child page with title "b" and tags "a", "b". -/
def exChild : Item :=
  { id := 2, treePath := [1, 2], attrs := [("title", "b")], tagAttrs := [("tags", ["a", "b"])] }

/-- A child page with title "a" and tag "a". -/
def exChild2 : Item :=
  { id := 3, treePath := [1, 3], attrs := [("title", "a")], tagAttrs := [("tags", ["a"])] }

/-- An example queryset over the two child pages. -/
def exQs : Queryset :=
  { items := [exChild, exChild2] }

/-- An example queryset already carrying the tag-filtered annotation. -/
def exTaggedQs : Queryset :=
  { items := [exChild], filteredByTag := true }

/-- An example tree environment: only page id 1 exists. -/
def exEnv : TreeEnv :=
  { get_root_page := exRoot
    get_page_by_id := fun n => if n == 1 then some exRoot else none }

/-- An example search backend that accepts every query unchanged. -/
def exBackend : SearchBackend :=
  { search := fun _ q _ _ => Except.ok q }

/-- An example view: one tag field and two orderable fields. -/
def exView : View :=
  { dbFields := [("tags", FieldKind.tag)], availableFields := ["title", "random"] }

/-! ## Theorems for the claims -/

/-- C1: the pagination stage computes `total_count` by counting the fully
filtered queryset before slicing, returns the slice `[offset, offset + limit)`,
and the response envelope carries the total count under `meta.total_count`
followed by the sliced items, so `total_count` equals the full filtered-set
size regardless of the offset and limit values. -/
theorem C1_pagination_counts_before_slicing
    (limit_max : Option Int) (qs : Queryset) (request : Params) (r : PaginatedQueryset)
    (h : WagtailPagination.paginate_queryset limit_max qs request = Except.ok r) :
    r.total_count = Queryset.count qs ∧
    (∃ offset limit : Int,
      WagtailPagination.parseOffset request = Except.ok offset ∧
      WagtailPagination.parseLimit limit_max request = Except.ok limit ∧
      r.results = Queryset.pySlice qs offset.toNat (offset.toNat + limit.toNat)) ∧
    WagtailPagination.get_paginated_response r.total_count r.results =
      JsonVal.obj
        [("meta", JsonVal.obj [("total_count", JsonVal.num (Queryset.count qs))]),
         ("items", JsonVal.arr r.results)] := by
  unfold WagtailPagination.paginate_queryset at h
  split at h
  · cases h
  · split at h
    · cases h
    · split at h
      · cases h
      · cases h
        refine ⟨rfl, ⟨_, _, ?_, ?_, rfl⟩, rfl⟩ <;> assumption

/-- Closed witness for C1 at a concrete request. -/
theorem C1_pagination_counts_before_slicing_witness :
    WagtailPagination.paginate_queryset (some 20) exQs [("offset", "1"), ("limit", "1")] =
      Except.ok { total_count := 2, results := [exChild2] } ∧
    (({ total_count := 2, results := [exChild2] } : PaginatedQueryset).total_count =
        Queryset.count exQs ∧
      (∃ offset limit : Int,
        WagtailPagination.parseOffset [("offset", "1"), ("limit", "1")] = Except.ok offset ∧
        WagtailPagination.parseLimit (some 20) [("offset", "1"), ("limit", "1")] =
          Except.ok limit ∧
        ({ total_count := 2, results := [exChild2] } : PaginatedQueryset).results =
          Queryset.pySlice exQs offset.toNat (offset.toNat + limit.toNat)) ∧
      WagtailPagination.get_paginated_response
          ({ total_count := 2, results := [exChild2] } : PaginatedQueryset).total_count
          ({ total_count := 2, results := [exChild2] } : PaginatedQueryset).results =
        JsonVal.obj
          [("meta", JsonVal.obj [("total_count", JsonVal.num (Queryset.count exQs))]),
           ("items", JsonVal.arr
             ({ total_count := 2, results := [exChild2] } : PaginatedQueryset).results)]) :=
  ⟨by decide,
   C1_pagination_counts_before_slicing (some 20) exQs [("offset", "1"), ("limit", "1")]
     { total_count := 2, results := [exChild2] } (by decide)⟩

/-- C2: once a tag-kind field filter has set the tag-filtered annotation, a
request that also carries the `search` parameter is rejected with a Bad Request
error whatever the search text is (and, when search is enabled, with exactly
the incompatibility message), so tag filtering and full-text search never both
apply in one request. -/
theorem C2_search_rejected_after_tag_filter
    (search_enabled : Bool) (sb : SearchBackend) (request : Params) (qs : Queryset)
    (htag : qs.filteredByTag = true)
    (hsearch : (Params.get? request "search").isSome = true) :
    (∃ msg, SearchFilter.filter_queryset search_enabled sb request qs = Except.error msg) ∧
    (search_enabled = true →
      SearchFilter.filter_queryset search_enabled sb request qs =
        Except.error "filtering by tag with a search query is not supported") := by
  obtain ⟨s, hs⟩ := Option.isSome_iff_exists.mp hsearch
  unfold SearchFilter.filter_queryset
  rw [hs]
  cases search_enabled with
  | false => exact ⟨⟨"search is disabled", by simp⟩, fun hh => by cases hh⟩
  | true => exact ⟨⟨"filtering by tag with a search query is not supported", by simp [htag]⟩,
      fun _ => by simp [htag]⟩

/-- Closed witness for C2 at a concrete request. -/
theorem C2_search_rejected_after_tag_filter_witness :
    (∃ msg, SearchFilter.filter_queryset true exBackend [("search", "x")] exTaggedQs =
      Except.error msg) ∧
    (true = true →
      SearchFilter.filter_queryset true exBackend [("search", "x")] exTaggedQs =
        Except.error "filtering by tag with a search query is not supported") :=
  C2_search_rejected_after_tag_filter true exBackend [("search", "x")] exTaggedQs
    (by decide) (by decide)

/-- C4: with `order=random`, the presence of any `offset` parameter (including
`0`) makes OrderingFilter reject the request, and in its absence the filter
applies database random ordering to the queryset. -/
theorem C4_random_order_offset_conflict
    (request : Params) (qs : Queryset) (view : View)
    (horder : Params.get? request "order" = some "random") :
    (Params.hasParam request "offset" = true →
      OrderingFilter.filter_queryset request qs view =
        Except.error "random ordering with offset is not supported") ∧
    (Params.hasParam request "offset" = false →
      OrderingFilter.filter_queryset request qs view =
        Except.ok (Queryset.orderRandom qs)) := by
  unfold OrderingFilter.filter_queryset
  rw [horder]
  exact ⟨fun hoff => by simp [hoff], fun hoff => by simp [hoff]⟩

/-- Closed witness for C4: `offset=0` rejects, no offset applies random order. -/
theorem C4_random_order_offset_conflict_witness :
    OrderingFilter.filter_queryset [("order", "random"), ("offset", "0")] exQs exView =
      Except.error "random ordering with offset is not supported" ∧
    OrderingFilter.filter_queryset [("order", "random")] exQs exView =
      Except.ok (Queryset.orderRandom exQs) :=
  ⟨(C4_random_order_offset_conflict [("order", "random"), ("offset", "0")] exQs exView
      (by decide)).1 (by decide),
   (C4_random_order_offset_conflict [("order", "random")] exQs exView (by decide)).2
     (by decide)⟩

/-- C3: in a request carrying both `child_of` and `descendant_of`, the
descendant-of stage (running after the child-of stage) rejects: whenever the
child-of annotation is present it raises the incompatibility error before any
parsing of its own value, and the two-stage pipeline always ends in a Bad
Request, so the two parameters never both narrow the query. -/
theorem C3_child_of_descendant_of_exclusive
    (env : TreeEnv) (request : Params) (qs : Queryset)
    (hc : (Params.get? request "child_of").isSome = true)
    (hd : (Params.get? request "descendant_of").isSome = true) :
    (∃ msg, treeFilterPipeline env request qs = Except.error msg) ∧
    (∀ qs2 : Queryset, (Queryset.filteredByChildOf qs2).isSome = true →
      DescendantOfFilter.filter_queryset env request qs2 =
        Except.error "filtering by descendant_of with child_of is not supported") := by
  obtain ⟨rawd, hrd⟩ := Option.isSome_iff_exists.mp hd
  have hdesc : ∀ qs2 : Queryset, (Queryset.filteredByChildOf qs2).isSome = true →
      DescendantOfFilter.filter_queryset env request qs2 =
        Except.error "filtering by descendant_of with child_of is not supported" := by
    intro qs2 h2
    unfold DescendantOfFilter.filter_queryset
    rw [hrd]
    simp [h2]
  refine ⟨?_, hdesc⟩
  obtain ⟨rawc, hrc⟩ := Option.isSome_iff_exists.mp hc
  cases hres : ChildOfFilter.filter_queryset env request qs with
  | error e => exact ⟨e, by unfold treeFilterPipeline; rw [hres]⟩
  | ok qs1 =>
    have hann : (Queryset.filteredByChildOf qs1).isSome = true := by
      unfold ChildOfFilter.filter_queryset at hres
      rw [hrc] at hres
      split at hres
      · rename_i heq; cases heq
      · split at hres
        · cases hres
        · cases hres; rfl
    exact ⟨"filtering by descendant_of with child_of is not supported",
      by unfold treeFilterPipeline; rw [hres]; exact hdesc qs1 hann⟩

/-- Closed witness for C3 at a concrete request carrying both parameters. -/
theorem C3_child_of_descendant_of_exclusive_witness :
    (∃ msg, treeFilterPipeline exEnv [("child_of", "1"), ("descendant_of", "1")] exQs =
      Except.error msg) ∧
    (∀ qs2 : Queryset, (Queryset.filteredByChildOf qs2).isSome = true →
      DescendantOfFilter.filter_queryset exEnv [("child_of", "1"), ("descendant_of", "1")] qs2 =
        Except.error "filtering by descendant_of with child_of is not supported") :=
  C3_child_of_descendant_of_exclusive exEnv [("child_of", "1"), ("descendant_of", "1")] exQs
    (by decide) (by decide)

/-- C7: for both tree filters (and, through the environment they run in, both
the unrestricted and the site-restricted variants): a value parsing as a
negative integer rejects with the "must be a positive integer" error, any
non-numeric value other than the literal `root` rejects with the same error,
and a numeric id whose page lookup fails rejects with the "parent page doesn't
exist" / "ancestor page doesn't exist" error instead of propagating the
not-found fault. -/
theorem C7_tree_filter_input_validation (env : TreeEnv) :
    (∀ request raw (n : Int) (qs : Queryset),
      Params.get? request "child_of" = some raw → pyInt raw = some n → n < 0 →
      ChildOfFilter.filter_queryset env request qs =
        Except.error "child_of must be a positive integer") ∧
    (∀ request raw (qs : Queryset),
      Params.get? request "child_of" = some raw → pyInt raw = none → raw ≠ "root" →
      ChildOfFilter.filter_queryset env request qs =
        Except.error "child_of must be a positive integer") ∧
    (∀ request raw (n : Int) (qs : Queryset),
      Params.get? request "child_of" = some raw → pyInt raw = some n → 0 ≤ n →
      env.get_page_by_id n = none →
      ChildOfFilter.filter_queryset env request qs =
        Except.error "parent page doesn\x27t exist") ∧
    (∀ request raw (n : Int) (qs : Queryset),
      Params.get? request "descendant_of" = some raw → qs.filteredByChildOf = none →
      pyInt raw = some n → n < 0 →
      DescendantOfFilter.filter_queryset env request qs =
        Except.error "descendant_of must be a positive integer") ∧
    (∀ request raw (qs : Queryset),
      Params.get? request "descendant_of" = some raw → qs.filteredByChildOf = none →
      pyInt raw = none → raw ≠ "root" →
      DescendantOfFilter.filter_queryset env request qs =
        Except.error "descendant_of must be a positive integer") ∧
    (∀ request raw (n : Int) (qs : Queryset),
      Params.get? request "descendant_of" = some raw → qs.filteredByChildOf = none →
      pyInt raw = some n → 0 ≤ n → env.get_page_by_id n = none →
      DescendantOfFilter.filter_queryset env request qs =
        Except.error "ancestor page doesn\x27t exist") := by
  refine ⟨?_, ?_, ?_, ?_, ?_, ?_⟩
  · intro request raw n qs h1 h2 h3
    have hroot : (raw == "root") = false := by
      refine beq_eq_false_iff_ne.mpr ?_
      intro hr
      rw [hr, show pyInt "root" = none from by decide] at h2
      cases h2
    have hres : ChildOfFilter.resolve_parent env raw =
        Except.error "child_of must be a positive integer" := by
      unfold ChildOfFilter.resolve_parent
      rw [h2]
      simp [h3, hroot]
    unfold ChildOfFilter.filter_queryset
    rw [h1]
    simp [hres]
  · intro request raw qs h1 h2 h3
    have hroot : (raw == "root") = false := beq_eq_false_iff_ne.mpr h3
    have hres : ChildOfFilter.resolve_parent env raw =
        Except.error "child_of must be a positive integer" := by
      unfold ChildOfFilter.resolve_parent
      rw [h2]
      simp [hroot]
    unfold ChildOfFilter.filter_queryset
    rw [h1]
    simp [hres]
  · intro request raw n qs h1 h2 h3 h4
    have hres : ChildOfFilter.resolve_parent env raw =
        Except.error "parent page doesn\x27t exist" := by
      unfold ChildOfFilter.resolve_parent
      rw [h2]
      simp [h4, not_lt.mpr h3]
    unfold ChildOfFilter.filter_queryset
    rw [h1]
    simp [hres]
  · intro request raw n qs h1 h0 h2 h3
    have hroot : (raw == "root") = false := by
      refine beq_eq_false_iff_ne.mpr ?_
      intro hr
      rw [hr, show pyInt "root" = none from by decide] at h2
      cases h2
    have hres : DescendantOfFilter.resolve_parent env raw =
        Except.error "descendant_of must be a positive integer" := by
      unfold DescendantOfFilter.resolve_parent
      rw [h2]
      simp [h3, hroot]
    unfold DescendantOfFilter.filter_queryset
    rw [h1]
    simp [h0, hres]
  · intro request raw qs h1 h0 h2 h3
    have hroot : (raw == "root") = false := beq_eq_false_iff_ne.mpr h3
    have hres : DescendantOfFilter.resolve_parent env raw =
        Except.error "descendant_of must be a positive integer" := by
      unfold DescendantOfFilter.resolve_parent
      rw [h2]
      simp [hroot]
    unfold DescendantOfFilter.filter_queryset
    rw [h1]
    simp [h0, hres]
  · intro request raw n qs h1 h0 h2 h3 h4
    have hres : DescendantOfFilter.resolve_parent env raw =
        Except.error "ancestor page doesn\x27t exist" := by
      unfold DescendantOfFilter.resolve_parent
      rw [h2]
      simp [h4, not_lt.mpr h3]
    unfold DescendantOfFilter.filter_queryset
    rw [h1]
    simp [h0, hres]

/-- Closed witness for C7: each of the six rejection behaviours at a concrete
input against the example tree environment. -/
theorem C7_tree_filter_input_validation_witness :
    ChildOfFilter.filter_queryset exEnv [("child_of", "-5")] exQs =
      Except.error "child_of must be a positive integer" ∧
    ChildOfFilter.filter_queryset exEnv [("child_of", "abc")] exQs =
      Except.error "child_of must be a positive integer" ∧
    ChildOfFilter.filter_queryset exEnv [("child_of", "99")] exQs =
      Except.error "parent page doesn\x27t exist" ∧
    DescendantOfFilter.filter_queryset exEnv [("descendant_of", "-5")] exQs =
      Except.error "descendant_of must be a positive integer" ∧
    DescendantOfFilter.filter_queryset exEnv [("descendant_of", "abc")] exQs =
      Except.error "descendant_of must be a positive integer" ∧
    DescendantOfFilter.filter_queryset exEnv [("descendant_of", "99")] exQs =
      Except.error "ancestor page doesn\x27t exist" := by
  obtain ⟨p1, p2, p3, p4, p5, p6⟩ := C7_tree_filter_input_validation exEnv
  exact ⟨p1 _ "-5" (-5) _ (by decide) (by decide) (by decide),
         p2 _ "abc" _ (by decide) (by decide) (by decide),
         p3 _ "99" 99 _ (by decide) (by decide) (by decide) (by decide),
         p4 _ "-5" (-5) _ (by decide) (by decide) (by decide) (by decide),
         p5 _ "abc" _ (by decide) (by decide) (by decide) (by decide),
         p6 _ "99" 99 _ (by decide) (by decide) (by decide) (by decide) (by decide)⟩

/-- An item whose field named "random" holds "b". -/
def exRand1 : Item :=
  { id := 4, attrs := [("random", "b")] }

/-- An item whose field named "random" holds "a". -/
def exRand2 : Item :=
  { id := 5, attrs := [("random", "a")] }

/-- A queryset over the two items with a "random" field. -/
def exRandQs : Queryset :=
  { items := [exRand1, exRand2] }

/-- C5 counterexample: when the available-field set contains a field literally
named "random", `order=random` takes the random-ordering branch while
`order=-random` sorts descending by the field, so the claimed equality fails
at this concrete dataset. -/
theorem C5_order_reverse_counterexample :
    OrderingFilter.filter_queryset [("order", "-random")] exRandQs exView ≠
      Except.map Queryset.reverse
        (OrderingFilter.filter_queryset [("order", "random")] exRandQs exView) := by decide

/-- C5 (amended): for every available field `f` other than the literal
`random` and not itself beginning with `-`, the queryset produced for
`order=-f` equals the reverse of the queryset produced for `order=f`: the
leading `-` strips to the field name, orders ascending by it, then reverses. -/
theorem C5_order_reverse_amended
    (view : View) (qs : Queryset) (f ov : String) (request request2 : Params)
    (hmem : (view.availableFields).contains f = true)
    (hnr : f ≠ "random")
    (hnd : strStartsWithDash f = false)
    (hov1 : strStartsWithDash ov = true)
    (hov2 : strDropOne ov = f)
    (h1 : Params.get? request "order" = some ov)
    (h2 : Params.get? request2 "order" = some f) :
    OrderingFilter.filter_queryset request qs view =
      Except.map Queryset.reverse (OrderingFilter.filter_queryset request2 qs view) := by
  have hovr : (ov == "random") = false := by
    refine beq_eq_false_iff_ne.mpr ?_
    intro hh
    rw [hh] at hov1
    exact absurd hov1 (by decide)
  have hfr : (f == "random") = false := beq_eq_false_iff_ne.mpr hnr
  have hmem2 : f ∈ view.availableFields := by simpa using hmem
  unfold OrderingFilter.filter_queryset
  rw [h1, h2]
  simp [hovr, hfr, hov1, hov2, hnd, hmem2, Except.map]

/-- Closed witness for the amended C5 at `order=title` / `order=-title`. -/
theorem C5_order_reverse_amended_witness :
    OrderingFilter.filter_queryset [("order", "-title")] exQs exView =
      Except.map Queryset.reverse
        (OrderingFilter.filter_queryset [("order", "title")] exQs exView) :=
  C5_order_reverse_amended exView exQs "title" "-title"
    [("order", "-title")] [("order", "title")]
    (by decide) (by decide) (by decide) (by decide) (by decide) (by decide) (by decide)

/-- Folding one has-tag filter per token over a queryset equals filtering by
the conjunction of all the tokens. -/
theorem foldl_filterTagNamed (fieldName : String) (tks : List String) (qs : Queryset) :
    tks.foldl (fun q tag => Queryset.filterTagNamed q fieldName tag) qs =
      { qs with items := (qs.items.filter
          (fun it => tks.all (fun tag => Item.hasTag it fieldName tag))) } := by
  induction tks generalizing qs with
  | nil => simp
  | cons t ts ih =>
    rw [List.foldl_cons, ih]
    unfold Queryset.filterTagNamed Queryset.filterItems
    simp only [List.filter_filter, List.all_cons]
    have hcomm : ∀ a : Item,
        ((ts.all fun tag => Item.hasTag a fieldName tag) && Item.hasTag a fieldName t) =
          (Item.hasTag a fieldName t && ts.all fun tag => Item.hasTag a fieldName tag) :=
      fun a => Bool.and_comm _ _
    simp only [hcomm]

/-- C6: for a tag-kind field parameter, FieldsFilter splits the value on
commas, applies one has-tag-named constraint per token, all conjoined, and
sets the tag-filtered annotation on the resulting queryset. -/
theorem C6_tag_filter_conjunction
    (view : View) (qs : Queryset) (fieldName value : String)
    (hfield : (view.dbFields).find? (fun p => p.1 == fieldName) =
      some (fieldName, FieldKind.tag)) :
    FieldsFilter.filter_queryset [(fieldName, value)] qs view =
      Except.ok { qs with
        items := (qs.items.filter
          (fun it => (pySplitComma value).all (fun tag => Item.hasTag it fieldName tag))),
        filteredByTag := true } := by
  unfold FieldsFilter.filter_queryset
  simp only [List.foldlM]
  unfold FieldsFilter.applyParam
  rw [hfield, foldl_filterTagNamed]
  rfl

/-- Closed witness for C6: value "a,b" keeps exactly the items carrying both
tag "a" and tag "b". -/
theorem C6_tag_filter_conjunction_witness :
    FieldsFilter.filter_queryset [("tags", "a,b")] exQs exView =
      Except.ok { exQs with
        items := (exQs.items.filter
          (fun it => (pySplitComma "a,b").all (fun tag => Item.hasTag it "tags" tag))),
        filteredByTag := true } :=
  C6_tag_filter_conjunction exView exQs "tags" "a,b" (by decide)

/-- A hook appending the resolved parent to the item list. -/
def exHookA : ExplorerHook :=
  fun parent q _ => { q with items := q.items ++ [parent] }

/-- A hook reversing the item list. -/
def exHookB : ExplorerHook :=
  fun _ q _ => { q with items := q.items.reverse }

/-- An example queryset carrying the child-of annotation. -/
def exAnnotQs : Queryset :=
  { items := [exChild], filteredByChildOf := some exRoot }

/-- C8: with a truthy `for_explorer` value, a missing child-of annotation is a
Bad Request, and with the annotation present every registered hook is invoked
in registration order with (resolved parent page, current queryset, request),
the queryset threading through each hook's return value. -/
theorem C8_for_explorer_requires_child_of
    (hooks : List ExplorerHook) (request : Params) (qs : Queryset) (v : String)
    (hv : Params.get? request "for_explorer" = some v)
    (hne : v ≠ "") :
    (qs.filteredByChildOf = none →
      ForExplorerFilter.filter_queryset hooks request qs =
        Except.error "filtering by for_explorer without child_of is not supported") ∧
    (∀ parent, qs.filteredByChildOf = some parent →
      ForExplorerFilter.filter_queryset hooks request qs =
        Except.ok (hooks.foldl (fun q hook => hook parent q request) qs)) := by
  unfold ForExplorerFilter.filter_queryset
  rw [hv]
  have htr : ((some v).getD "" != "") = true := by
    simpa using hne
  rw [if_pos htr]
  exact ⟨fun h0 => by rw [h0], fun parent hp => by rw [hp]⟩

/-- Closed witness for C8: both branches at concrete inputs, with two hooks
whose order of application is observable. -/
theorem C8_for_explorer_requires_child_of_witness :
    ForExplorerFilter.filter_queryset [exHookA, exHookB] [("for_explorer", "1")] exQs =
      Except.error "filtering by for_explorer without child_of is not supported" ∧
    ForExplorerFilter.filter_queryset [exHookA, exHookB] [("for_explorer", "1")] exAnnotQs =
      Except.ok ([exHookA, exHookB].foldl
        (fun q hook => hook exRoot q [("for_explorer", "1")]) exAnnotQs) :=
  ⟨(C8_for_explorer_requires_child_of [exHookA, exHookB] [("for_explorer", "1")] exQs "1"
      (by decide) (by decide)).1 (by decide),
   (C8_for_explorer_requires_child_of [exHookA, exHookB] [("for_explorer", "1")] exAnnotQs "1"
      (by decide) (by decide)).2 exRoot (by decide)⟩

/-- C9: when a maximum limit is configured and the requested limit exceeds it,
pagination rejects with an error stating that maximum; and an `offset` or
`limit` value that does not parse as a non-negative integer rejects with an
error naming that parameter. -/
theorem C9_pagination_limit_validation (qs : Queryset) :
    (∀ (limit_max : Option Int) (m : Int) request off limit,
      limit_max = some m → m ≠ 0 →
      WagtailPagination.parseOffset request = Except.ok off →
      WagtailPagination.parseLimit limit_max request = Except.ok limit →
      m < limit →
      WagtailPagination.paginate_queryset limit_max qs request =
        Except.error ("limit cannot be higher than " ++ toString m)) ∧
    (∀ (limit_max : Option Int) request s,
      Params.get? request "offset" = some s →
      (∀ n : Int, pyInt s = some n → n < 0) →
      WagtailPagination.paginate_queryset limit_max qs request =
        Except.error "offset must be a positive integer") ∧
    (∀ (limit_max : Option Int) request s off,
      WagtailPagination.parseOffset request = Except.ok off →
      Params.get? request "limit" = some s →
      (∀ n : Int, pyInt s = some n → n < 0) →
      WagtailPagination.paginate_queryset limit_max qs request =
        Except.error "limit must be a positive integer") := by
  refine ⟨?_, ?_, ?_⟩
  · intro limit_max m request off limit hm hm0 hoff hlim hlt
    have hchk : WagtailPagination.checkLimitMax limit_max limit =
        Except.error ("limit cannot be higher than " ++ toString m) := by
      rw [hm]
      unfold WagtailPagination.checkLimitMax
      have h1 : (m != 0) = true := bne_iff_ne.mpr hm0
      simp [h1, hlt]
    unfold WagtailPagination.paginate_queryset
    simp only [hoff, hlim, hchk]
  · intro limit_max request s hs hneg
    have hoff : WagtailPagination.parseOffset request =
        Except.error "offset must be a positive integer" := by
      unfold WagtailPagination.parseOffset
      simp only [hs]
      cases hpy : pyInt s with
      | none => simp [hpy]
      | some n => simp [hpy, hneg n hpy]
    unfold WagtailPagination.paginate_queryset
    simp only [hoff]
  · intro limit_max request s off hoff hs hneg
    have hlim : WagtailPagination.parseLimit limit_max request =
        Except.error "limit must be a positive integer" := by
      unfold WagtailPagination.parseLimit
      simp only [hs]
      cases hpy : pyInt s with
      | none => simp [hpy]
      | some n => simp [hpy, hneg n hpy]
    unfold WagtailPagination.paginate_queryset
    simp only [hoff, hlim]

/-- Closed witness for C9: an over-maximum limit, `offset=-1` and a
non-numeric limit each rejected at a concrete request. -/
theorem C9_pagination_limit_validation_witness :
    WagtailPagination.paginate_queryset (some 2) exQs [("limit", "5")] =
      Except.error ("limit cannot be higher than " ++ toString (2 : Int)) ∧
    WagtailPagination.paginate_queryset (some 2) exQs [("offset", "-1")] =
      Except.error "offset must be a positive integer" ∧
    WagtailPagination.paginate_queryset (some 2) exQs [("limit", "abc")] =
      Except.error "limit must be a positive integer" := by
  obtain ⟨p1, p2, p3⟩ := C9_pagination_limit_validation exQs
  refine ⟨p1 (some 2) 2 [("limit", "5")] 0 5 (by decide) (by decide) (by decide)
      (by decide) (by decide), ?_, ?_⟩
  · exact p2 (some 2) [("offset", "-1")] "-1" (by decide)
      (fun n hn => by
        rw [show pyInt "-1" = some (-1) from by decide] at hn
        cases hn
        decide)
  · exact p3 (some 2) [("limit", "abc")] "abc" 0 (by decide) (by decide)
      (fun n hn => by
        rw [show pyInt "abc" = none from by decide] at hn
        cases hn)

/-- C10: `for_explorer` is tested by raw string truthiness: an absent parameter
or an empty-string value leaves the queryset unchanged, while any non-empty
value (including "0" and "false") activates the filter, triggering the
child-of requirement check and hook invocation. -/
theorem C10_for_explorer_raw_truthiness
    (hooks : List ExplorerHook) (request : Params) (qs : Queryset) :
    ((Params.get? request "for_explorer" = none ∨
        Params.get? request "for_explorer" = some "") →
      ForExplorerFilter.filter_queryset hooks request qs = Except.ok qs) ∧
    (∀ v, Params.get? request "for_explorer" = some v → v ≠ "" →
      ForExplorerFilter.filter_queryset hooks request qs =
        (match qs.filteredByChildOf with
         | none => Except.error "filtering by for_explorer without child_of is not supported"
         | some parent =>
            Except.ok (hooks.foldl (fun q hook => hook parent q request) qs))) := by
  constructor
  · intro h
    unfold ForExplorerFilter.filter_queryset
    rcases h with h | h <;> rw [h] <;> rfl
  · intro v hv hne
    unfold ForExplorerFilter.filter_queryset
    rw [hv]
    have htr : ((some v).getD "" != "") = true := by
      simpa using hne
    rw [if_pos htr]

/-- Closed witness for C10: absent and empty values pass through; "0" and
"false" activate the filter. -/
theorem C10_for_explorer_raw_truthiness_witness :
    ForExplorerFilter.filter_queryset [exHookA] [] exQs = Except.ok exQs ∧
    ForExplorerFilter.filter_queryset [exHookA] [("for_explorer", "")] exQs =
      Except.ok exQs ∧
    ForExplorerFilter.filter_queryset [exHookA] [("for_explorer", "0")] exQs =
      (match exQs.filteredByChildOf with
       | none => Except.error "filtering by for_explorer without child_of is not supported"
       | some parent =>
          Except.ok ([exHookA].foldl
            (fun q hook => hook parent q [("for_explorer", "0")]) exQs)) ∧
    ForExplorerFilter.filter_queryset [exHookA] [("for_explorer", "false")] exAnnotQs =
      (match exAnnotQs.filteredByChildOf with
       | none => Except.error "filtering by for_explorer without child_of is not supported"
       | some parent =>
          Except.ok ([exHookA].foldl
            (fun q hook => hook parent q [("for_explorer", "false")]) exAnnotQs)) :=
  ⟨(C10_for_explorer_raw_truthiness [exHookA] [] exQs).1 (Or.inl (by decide)),
   (C10_for_explorer_raw_truthiness [exHookA] [("for_explorer", "")] exQs).1
     (Or.inr (by decide)),
   (C10_for_explorer_raw_truthiness [exHookA] [("for_explorer", "0")] exQs).2 "0"
     (by decide) (by decide),
   (C10_for_explorer_raw_truthiness [exHookA] [("for_explorer", "false")] exAnnotQs).2 "false"
     (by decide) (by decide)⟩

end Wagtail
